import Mathlib

/-!
Verification development for the pytest FITS-comparison plugin
(`pytest_fits/plugin.py`).  The plugin is pure control flow around three
external collaborators (a FITS writer, the `FITSDiff` comparator, and a
URL fetcher), so the embedding models:

* POSIX path arithmetic (`os.path.join`, `os.path.abspath`,
  `posixpath.normpath`, Python's `str.startswith`) as executable functions
  on `String`;
* the filesystem as an explicit state (`FS`: files with contents, plus a
  set of directories) threaded through each stateful step;
* the external collaborators as oracle fields of an `Env` record
  (`fitsdiff`, `download`, `encode`) together with the names `mkdtemp`
  returns (`tmp1`, `tmp2`);
* the plugin functions `compare_fits_files`, `_download_file`,
  `pytest_configure`, `FITSComparison.pytest_runtest_setup` and the inner
  `item_function_wrapper` as Lean functions over that state, keeping the
  source's names and control flow (including its quirks: the literal
  filenames in `compare_fits_files`, the late `atol` check, and the
  `baseline_dir = os.path.abspath(generate_dir)` assignment in
  `pytest_configure`).

Floating point tolerances are represented by `Rat`; the plugin only passes
them through to the comparator oracle, so no float arithmetic is modelled.
-/

/-! ## Python string/path primitives -/

/-- Boolean prefix test on lists of characters (used to embed Python's
`str.startswith`). -/
def listPrefixCheck : List Char → List Char → Bool
  | [], _ => true
  | _ :: _, [] => false
  | a :: as, b :: bs => a == b && listPrefixCheck as bs

/-- Python's `s.startswith(p)`. -/
def strStartsWith (s p : String) : Bool := listPrefixCheck p.data s.data

/-- Boolean suffix test on lists of characters. -/
def listSuffixCheck (p l : List Char) : Bool := listPrefixCheck p.reverse l.reverse

/-- Python's `s.endswith(p)`. -/
def strEndsWith (s p : String) : Bool := listSuffixCheck p.data s.data

/-- `posixpath.isabs`. -/
def isAbs (p : String) : Bool := strStartsWith p "/"

/-- `posixpath.join` on two components (the only arity the plugin uses
directly; three-argument joins are nested two-argument joins). -/
def joinPath (a b : String) : String :=
  if isAbs b then b
  else if a == "" || strEndsWith a "/" then a ++ b
  else a ++ "/" ++ b

/-- Split a character list at `'/'` (Python's `path.split('/')`). -/
def splitOnSlash : List Char → List (List Char)
  | [] => [[]]
  | c :: cs =>
    if c == '/' then [] :: splitOnSlash cs
    else
      match splitOnSlash cs with
      | [] => [[c]]
      | h :: t => (c :: h) :: t

/-- Join components with `'/'` (Python's `'/'.join`). -/
def joinComps : List String → String
  | [] => ""
  | [x] => x
  | x :: xs => x ++ "/" ++ joinComps xs

/-- Component normalisation loop of `posixpath.normpath`. -/
def normComps (initialSlashes : Nat) (comps : List String) : List String :=
  comps.foldl
    (fun acc comp =>
      if comp == "" || comp == "." then acc
      else if comp != ".." || (initialSlashes == 0 && acc.isEmpty) ||
          (!acc.isEmpty && acc.getLast? == some "..") then
        acc ++ [comp]
      else acc.dropLast)
    []

/-- `posixpath.normpath`. -/
def normpath (p : String) : String :=
  if p == "" then "."
  else
    let initialSlashes : Nat :=
      if strStartsWith p "/" then
        (if strStartsWith p "//" && !(strStartsWith p "///") then 2 else 1)
      else 0
    let path := joinComps
      (normComps initialSlashes ((splitOnSlash p.data).map String.mk))
    let path := String.mk (List.replicate initialSlashes '/') ++ path
    if path == "" then "." else path

/-- `posixpath.abspath`, with the process working directory passed
explicitly. -/
def abspath (cwd p : String) : String :=
  normpath (if isAbs p then p else joinPath cwd p)

/-! ## Filesystem state -/

/-- Filesystem snapshot: file paths with contents (later writes shadow
earlier entries) and a list of directories. -/
structure FS where
  files : List (String × String)
  dirs : List String
deriving DecidableEq, Repr

/-- Content of a file, if present. -/
def lookupFile (p : String) (fs : FS) : Option String :=
  (fs.files.find? (fun e => e.1 == p)).map (fun e => e.2)

/-- `os.path.exists`: true for files and directories. -/
def pathExists (p : String) (fs : FS) : Bool :=
  (lookupFile p fs).isSome || fs.dirs.contains p

/-- Write (or overwrite) a file. -/
def writeFile (p c : String) (fs : FS) : FS :=
  { fs with files := (p, c) :: fs.files }

/-- Create one directory (`tempfile.mkdtemp` result registration). -/
def mkdir (p : String) (fs : FS) : FS :=
  { fs with dirs := p :: fs.dirs }

/-- `os.makedirs`: intermediate directories are not tracked separately;
the target directory is registered. -/
def makedirs (p : String) (fs : FS) : FS := mkdir p fs

/-- `shutil.copyfile src dst`.  The plugin only calls it after an
existence check, so the missing-source branch (a raised `IOError` in
Python) is modelled as a no-op that the wrapper never reaches with a
file source absent. -/
def copyfile (src dst : String) (fs : FS) : FS :=
  match lookupFile src fs with
  | some c => writeFile dst c fs
  | none => fs

/-- `shutil.rmtree d`: drop the directory and everything under it. -/
def rmtree (d : String) (fs : FS) : FS :=
  { files := fs.files.filter (fun e => !(strStartsWith e.1 (d ++ "/")) && e.1 != d),
    dirs := fs.dirs.filter (fun x => !(strStartsWith x (d ++ "/")) && x != d) }

/-! ## Plugin data model -/

/-- Default relative tolerance (`rtol = 1e-7`), represented exactly. -/
def default_rtol : Rat := 1 / 10000000

/-- Keyword arguments of the `fits_compare` marker. -/
structure Marker where
  filename : Option String
  atol : Option Rat
  rtol : Option Rat
  baseline_dir : Option String
  writeto_kwargs : List (String × String)

/-- `compare.kwargs.get('rtol', 1e-7)`. -/
def resolvedRtol (compare : Marker) : Rat :=
  match compare.rtol with
  | some r => r
  | none => default_rtol

/-- The orchestrator registered by `pytest_configure` (class
`FITSComparison`): its two configured directories. -/
structure FITSComparison where
  baseline_dir : Option String
  generate_dir : Option String
deriving DecidableEq, Repr

/-- Test outcome as pytest sees it: normal return, a raised exception
(test failure/error), or `pytest.skip`. -/
inductive Outcome where
  | passed
  | error (msg : String)
  | skipped (msg : String)
deriving DecidableEq, Repr

/-- A test item's callable: either the original test function (returning
the produced HDU object, modelled as its contents) or the plugin's
wrapper, which also transforms the filesystem and produces an outcome. -/
inductive ItemCallable where
  | plain (f : String → String)
  | wrapped (w : String → FS → Outcome × FS)

/-- The pytest item fields the plugin reads: the directory of the test
file (`os.path.dirname(item.fspath.strpath)`), the test function's
`__name__`, the `fits_compare` marker if present, the original test
function (`item.function`), and the current callable (`item.obj`). -/
structure Item where
  testDir : String
  testName : String
  keywords_fits_compare : Option Marker
  function : String → String
  obj : ItemCallable

/-- External world: process cwd, the fresh directories `tempfile.mkdtemp`
hands out (first for the result dir, second inside `_download_file`),
the `FITSDiff` comparator (two paths, tolerance, filesystem ↦ identity
flag and report), the network (`urlopen(url).read()` contents), and the
FITS writer's encoding of an HDU object under given `writeto` kwargs. -/
structure Env where
  cwd : String
  tmp1 : String
  tmp2 : String
  fitsdiff : String → String → Rat → FS → Bool × String
  download : String → String
  encode : String → List (String × String) → String

/-! ## Embedded plugin functions -/

/-- `compare_fits_files(filename1, filename2, atol=None, rtol=1e-7)`
(plugin.py lines 52-63).  Faithful to the source, including the
reassignment of `filename1`/`filename2` to the literal names before the
`FITSDiff` call.  A raised `NotImplementedError` is an `Except.error`. -/
def compare_fits_files (env : Env) (filename1 filename2 : String)
    (atol : Option Rat) (rtol : Rat) (fs : FS) : Except String (Bool × String) :=
  if atol.isSome then
    Except.error "atol argument not yet supported"
  else
    let filename1 := "galactic_2d.fits"
    let filename2 := "equatorial_3d.fits"
    let diff := env.fitsdiff filename1 filename2 rtol fs
    Except.ok (diff.1, diff.2)

/-- `_download_file(url)` (lines 66-72): make a fresh temp directory,
write the fetched bytes to `<tmpdir>/downloaded`, return that path. -/
def download_file (env : Env) (url : String) (fs : FS) : String × FS :=
  let result_dir := env.tmp2
  let filename := joinPath result_dir "downloaded"
  (filename, writeFile filename (env.download url) (mkdir result_dir fs))

/-- `pytest_configure(config)` (lines 85-102).  Returns `none` when no
orchestrator is registered, or `some (plugin, warned)` with the single
registered `FITSComparison` and whether the conflict warning was emitted.
Faithful to the source: line 98 assigns `os.path.abspath(generate_dir)`
to `baseline_dir` (not to `generate_dir`). -/
def pytest_configure (cwd : String) (fits : Bool)
    (generate_path baseline_path : Option String) :
    Option (FITSComparison × Bool) :=
  if fits || generate_path.isSome then
    let baseline_dir := baseline_path
    let generate_dir := generate_path
    let warned := baseline_dir.isSome && generate_dir.isSome
    let baseline_dir :=
      match baseline_dir with
      | some b => some (abspath cwd b)
      | none => none
    let baseline_dir :=
      match generate_dir with
      | some g => some (abspath cwd g)
      | none => baseline_dir
    some ({ baseline_dir := baseline_dir, generate_dir := generate_dir }, warned)
  else
    none

/-- Baseline directory resolution inside `item_function_wrapper`
(lines 129-137). -/
def resolve_baseline_dir (self : FITSComparison) (compare : Marker)
    (item : Item) : String :=
  match compare.baseline_dir with
  | none =>
    match self.baseline_dir with
    | none => joinPath item.testDir "baseline"
    | some d => d
  | some d =>
    if strStartsWith d "http://" || strStartsWith d "https://" then d
    else joinPath item.testDir d

/-- Target filename (lines 149-151): marker override, else
`original.__name__ + '.fits'`. -/
def markerFilename (compare : Marker) (item : Item) : String :=
  match compare.filename with
  | some f => f
  | none => item.testName ++ ".fits"

/-- Where the generated artifact is written in verification mode
(line 159): `os.path.abspath(os.path.join(result_dir, filename))`. -/
def test_image (env : Env) (compare : Marker) (item : Item) : String :=
  abspath env.cwd (joinPath env.tmp1 (markerFilename compare item))

/-- Where the baseline is copied in verification mode (line 178). -/
def baseline_copy_path (env : Env) (compare : Marker) (item : Item) : String :=
  abspath env.cwd (joinPath env.tmp1 ("baseline-" ++ markerFilename compare item))

/-- Filesystem after `tempfile.mkdtemp()` (line 158). -/
def verify_fs1 (env : Env) (fs : FS) : FS := mkdir env.tmp1 fs

/-- Filesystem after `hdu.writeto(test_image, **writeto_kwargs)`
(line 161). -/
def verify_fs2 (env : Env) (compare : Marker) (item : Item) (hdu : String)
    (fs : FS) : FS :=
  writeFile (test_image env compare item) (env.encode hdu compare.writeto_kwargs)
    (verify_fs1 env fs)

/-- Resolved baseline reference: either a download URL or a local path. -/
inductive BaselineLoc where
  | remote (url : String)
  | localFile (path : String)
deriving DecidableEq, Repr

/-- Lines 139 and 164-167: classify the resolved baseline directory by
the bare prefix `'http'` and build either the download URL
(`baseline_dir + filename`, no separator inserted) or the local path
`os.path.abspath(os.path.join(dirname, baseline_dir, filename))`. -/
def source_baseline_loc (env : Env) (self : FITSComparison) (compare : Marker)
    (item : Item) : BaselineLoc :=
  let baseline_dir := resolve_baseline_dir self compare item
  let filename := markerFilename compare item
  if strStartsWith baseline_dir "http" then
    BaselineLoc.remote (baseline_dir ++ filename)
  else
    BaselineLoc.localFile
      (abspath env.cwd (joinPath (joinPath item.testDir baseline_dir) filename))

/-- Obtain `baseline_file_ref` (lines 164-167): download a remote
baseline into a fresh temp directory, or use the local path as is. -/
def baseline_ref_and_fs (env : Env) (self : FITSComparison) (compare : Marker)
    (item : Item) (fs : FS) : String × FS :=
  match source_baseline_loc env self compare item with
  | BaselineLoc.remote url => download_file env url fs
  | BaselineLoc.localFile p => (p, fs)

/-- Filesystem after the defensive baseline copy (line 179). -/
def verify_fs3 (env : Env) (self : FITSComparison) (compare : Marker)
    (item : Item) (hdu : String) (fs : FS) : FS :=
  copyfile
    (baseline_ref_and_fs env self compare item (verify_fs2 env compare item hdu fs)).1
    (baseline_copy_path env compare item)
    (baseline_ref_and_fs env self compare item (verify_fs2 env compare item hdu fs)).2

/-- The exception message of the missing-baseline branch (lines 170-174),
with the source's literal indentation. -/
def missing_note : String := "This is expected for new tests."

/-- Leading part of the missing-baseline message. -/
def missing_msg_header : String :=
  "FITS file not found for comparison test\n                                    Generated FITS file:\n                                    \t"

/-- Indentation between the artifact path and the closing note. -/
def missing_msg_mid : String := "\n                                    "

/-- The formatted missing-baseline message, `test` being the generated
artifact's path. -/
def missing_baseline_msg (test : String) : String :=
  missing_msg_header ++ (test ++ (missing_msg_mid ++ missing_note))

/-- Verification branch of `item_function_wrapper` (lines 155-186). -/
def verify_branch (env : Env) (self : FITSComparison) (compare : Marker)
    (item : Item) (hdu : String) (fs : FS) : Outcome × FS :=
  if pathExists
      (baseline_ref_and_fs env self compare item (verify_fs2 env compare item hdu fs)).1
      (baseline_ref_and_fs env self compare item (verify_fs2 env compare item hdu fs)).2 then
    match compare_fits_files env (baseline_copy_path env compare item)
        (test_image env compare item) compare.atol (resolvedRtol compare)
        (verify_fs3 env self compare item hdu fs) with
    | Except.error e => (Outcome.error e, verify_fs3 env self compare item hdu fs)
    | Except.ok r =>
      if r.1 then (Outcome.passed, rmtree env.tmp1 (verify_fs3 env self compare item hdu fs))
      else (Outcome.error r.2, verify_fs3 env self compare item hdu fs)
  else
    (Outcome.error (missing_baseline_msg (test_image env compare item)),
      (baseline_ref_and_fs env self compare item (verify_fs2 env compare item hdu fs)).2)

/-- Generation branch of `item_function_wrapper` (lines 188-194). -/
def generate_branch (env : Env) (compare : Marker) (item : Item)
    (generate_dir : String) (hdu : String) (fs : FS) : Outcome × FS :=
  (Outcome.skipped "Skipping test, since generating data",
    writeFile (abspath env.cwd (joinPath generate_dir (markerFilename compare item)))
      (env.encode hdu compare.writeto_kwargs)
      (if pathExists generate_dir fs then fs else makedirs generate_dir fs))

/-- `item_function_wrapper` (lines 127-194), after the original test body
has produced `hdu`.  The baseline resolution, the remote flag and the
filename computation are the definitions above, which the two branches
consult exactly as the source does. -/
def item_function_wrapper (env : Env) (self : FITSComparison) (compare : Marker)
    (item : Item) (hdu : String) (fs : FS) : Outcome × FS :=
  match self.generate_dir with
  | none => verify_branch env self compare item hdu fs
  | some generate_dir => generate_branch env compare item generate_dir hdu fs

/-- `FITSComparison.pytest_runtest_setup` (lines 112-199): without the
`fits_compare` marker the item is returned untouched; with it, the
item's callable is replaced by the wrapper, which runs the original test
function and feeds its product to `item_function_wrapper`. -/
def pytest_runtest_setup (self : FITSComparison) (env : Env) (item : Item) : Item :=
  match item.keywords_fits_compare with
  | none => item
  | some compare =>
    { item with obj := ItemCallable.wrapped (fun arg fs =>
        item_function_wrapper env self compare item (item.function arg) fs) }

/-! ## Specification-side definition for the baseline-location rule -/

/-- Modelled from the spec: the baseline-location rule of spec section 3
and section 4.2 step 2, written from the spec's words for the refinement
claim about baseline resolution.  Priority order: explicit marker
override, else the global baseline directory, else a default `baseline`
subdirectory next to the test file; a remote (URL-prefixed) root is used
as-is to build the download URL; a local root is resolved relative to the
test file's directory and the result made absolute. -/
def spec_baseline_loc (env : Env) (self : FITSComparison) (compare : Marker)
    (item : Item) : BaselineLoc :=
  let root :=
    match compare.baseline_dir with
    | some d => d
    | none =>
      match self.baseline_dir with
      | some d => d
      | none => "baseline"
  let filename := markerFilename compare item
  if strStartsWith root "http://" || strStartsWith root "https://" then
    BaselineLoc.remote (root ++ filename)
  else
    BaselineLoc.localFile
      (abspath env.cwd (joinPath (joinPath item.testDir root) filename))

/-! ## Helper lemmas: prefixes and paths -/

/-- Transitivity of the character-list prefix check. -/
theorem listPrefixCheck_trans {p q l : List Char}
    (h1 : listPrefixCheck p q = true) (h2 : listPrefixCheck q l = true) :
    listPrefixCheck p l = true := by
  induction p generalizing q l with
  | nil => rfl
  | cons a as ih =>
    cases q with
    | nil => simp [listPrefixCheck] at h1
    | cons b bs =>
      cases l with
      | nil => simp [listPrefixCheck] at h2
      | cons c cs =>
        simp only [listPrefixCheck, Bool.and_eq_true, beq_iff_eq] at h1 h2 ⊢
        exact ⟨h1.1.trans h2.1, ih h1.2 h2.2⟩

/-- A prefix of a list is still a prefix after appending on the right. -/
theorem listPrefixCheck_append {p l : List Char} (l' : List Char)
    (h : listPrefixCheck p l = true) : listPrefixCheck p (l ++ l') = true := by
  induction p generalizing l with
  | nil => rfl
  | cons a as ih =>
    cases l with
    | nil => simp [listPrefixCheck] at h
    | cons b bs =>
      simp only [List.cons_append, listPrefixCheck, Bool.and_eq_true] at h ⊢
      exact ⟨h.1, ih h.2⟩

/-- An absolute path's character data starts with a slash. -/
theorem data_head_slash_of_isAbs {s : String} (h : isAbs s = true) :
    ∃ t, s.data = '/' :: t := by
  unfold isAbs strStartsWith at h
  have hd : "/".data = ['/'] := rfl
  rw [hd] at h
  cases hs : s.data with
  | nil => rw [hs] at h; simp [listPrefixCheck] at h
  | cons c cs =>
    rw [hs] at h
    simp only [listPrefixCheck, Bool.and_eq_true, beq_iff_eq] at h
    exact ⟨cs, by rw [h.1]⟩

/-- An absolute path does not start with the bare prefix `http`. -/
theorem not_http_of_isAbs {s : String} (h : isAbs s = true) :
    strStartsWith s "http" = false := by
  obtain ⟨t, ht⟩ := data_head_slash_of_isAbs h
  unfold strStartsWith
  rw [ht]
  have hd : "http".data = ['h', 't', 't', 'p'] := rfl
  rw [hd]
  simp [listPrefixCheck]

/-- An absolute path does not start with `http://`. -/
theorem not_httpURL_of_isAbs {s : String} (h : isAbs s = true) :
    strStartsWith s "http://" = false := by
  obtain ⟨t, ht⟩ := data_head_slash_of_isAbs h
  unfold strStartsWith
  rw [ht]
  have hd : "http://".data = ['h', 't', 't', 'p', ':', '/', '/'] := rfl
  rw [hd]
  simp [listPrefixCheck]

/-- An absolute path does not start with `https://`. -/
theorem not_httpsURL_of_isAbs {s : String} (h : isAbs s = true) :
    strStartsWith s "https://" = false := by
  obtain ⟨t, ht⟩ := data_head_slash_of_isAbs h
  unfold strStartsWith
  rw [ht]
  have hd : "https://".data = ['h', 't', 't', 'p', 's', ':', '/', '/'] := rfl
  rw [hd]
  simp [listPrefixCheck]

/-- A string starting with `http://` or `https://` starts with `http`. -/
theorem http_of_url {s : String}
    (h : strStartsWith s "http://" = true ∨ strStartsWith s "https://" = true) :
    strStartsWith s "http" = true := by
  unfold strStartsWith at h ⊢
  rcases h with h | h
  · exact listPrefixCheck_trans (p := "http".data) (by decide) h
  · exact listPrefixCheck_trans (p := "http".data) (by decide) h

/-- `os.path.join` with an absolute second component ignores the first. -/
theorem joinPath_of_isAbs (a : String) {b : String} (h : isAbs b = true) :
    joinPath a b = b := by
  unfold joinPath
  rw [h]
  simp

/-- Appending on the right keeps a path absolute. -/
theorem isAbs_append {a : String} (x : String) (h : isAbs a = true) :
    isAbs (a ++ x) = true := by
  unfold isAbs strStartsWith at h ⊢
  rw [String.data_append]
  exact listPrefixCheck_append _ h

/-- `os.path.join` starting from an absolute path stays absolute. -/
theorem isAbs_joinPath {a : String} (b : String) (h : isAbs a = true) :
    isAbs (joinPath a b) = true := by
  unfold joinPath
  by_cases hb : isAbs b
  · rw [hb]; simpa using hb
  · simp only [Bool.not_eq_true] at hb
    rw [hb]
    simp only [Bool.false_eq_true, if_false]
    by_cases he : (a == "" || strEndsWith a "/") = true
    · rw [if_pos he]
      exact isAbs_append b h
    · rw [if_neg he]
      exact isAbs_append b (isAbs_append "/" h)

/-! ## Helper lemmas: filesystem frame properties -/

/-- Writing a file does not change the directory set. -/
theorem writeFile_dirs (p c : String) (fs : FS) :
    (writeFile p c fs).dirs = fs.dirs := rfl

/-- `mkdir` prepends the new directory. -/
theorem mkdir_dirs (d : String) (fs : FS) :
    (mkdir d fs).dirs = d :: fs.dirs := rfl

/-- Copying a file does not change the directory set. -/
theorem copyfile_dirs (src dst : String) (fs : FS) :
    (copyfile src dst fs).dirs = fs.dirs := by
  unfold copyfile
  cases lookupFile src fs <;> rfl

/-- `_download_file` only adds its own temp directory. -/
theorem download_file_dirs (env : Env) (url : String) (fs : FS) :
    ((download_file env url fs).2).dirs = env.tmp2 :: fs.dirs := rfl

/-- Reading back a file just written yields the written content. -/
theorem lookupFile_writeFile_self (p c : String) (fs : FS) :
    lookupFile p (writeFile p c fs) = some c := by
  unfold lookupFile writeFile
  simp [List.find?]

/-- A directory in the directory set exists. -/
theorem pathExists_of_mem_dirs {d : String} {fs : FS} (h : d ∈ fs.dirs) :
    pathExists d fs = true := by
  unfold pathExists
  simp only [Bool.or_eq_true, List.contains]
  right
  simpa using h

/-- The wrapper's temp directory survives the baseline-fetch step. -/
theorem tmp1_mem_baseline_ref_dirs (env : Env) (self : FITSComparison)
    (compare : Marker) (item : Item) (hdu : String) (fs : FS) :
    env.tmp1 ∈ ((baseline_ref_and_fs env self compare item
      (verify_fs2 env compare item hdu fs)).2).dirs := by
  unfold baseline_ref_and_fs
  cases source_baseline_loc env self compare item with
  | remote url =>
    simp [download_file, verify_fs2, verify_fs1, writeFile, mkdir]
  | localFile p =>
    simp [verify_fs2, verify_fs1, writeFile, mkdir]

/-- The wrapper's temp directory survives up to the comparison call. -/
theorem tmp1_mem_verify_fs3_dirs (env : Env) (self : FITSComparison)
    (compare : Marker) (item : Item) (hdu : String) (fs : FS) :
    env.tmp1 ∈ (verify_fs3 env self compare item hdu fs).dirs := by
  unfold verify_fs3
  rw [copyfile_dirs]
  exact tmp1_mem_baseline_ref_dirs env self compare item hdu fs

/-! ## More filesystem monotonicity lemmas -/

/-- A file-existence witness implies path existence. -/
theorem pathExists_of_lookup_isSome {p : String} {fs : FS}
    (h : (lookupFile p fs).isSome = true) : pathExists p fs = true := by
  unfold pathExists
  rw [h]
  rfl

/-- Writing another file preserves existence. -/
theorem pathExists_writeFile_mono {p : String} {fs : FS} (q d : String)
    (h : pathExists p fs = true) : pathExists p (writeFile q d fs) = true := by
  unfold pathExists lookupFile at h
  unfold pathExists lookupFile writeFile
  simp only [Bool.or_eq_true] at h ⊢
  rcases h with h | h
  · left
    by_cases hq : (q == p) = true
    · simp [List.find?, hq]
    · simp only [Bool.not_eq_true] at hq
      simpa [List.find?, hq] using h
  · right
    exact h

/-- Creating a directory preserves existence. -/
theorem pathExists_mkdir_mono {p : String} {fs : FS} (q : String)
    (h : pathExists p fs = true) : pathExists p (mkdir q fs) = true := by
  unfold pathExists lookupFile at h
  unfold pathExists lookupFile mkdir
  simp only [Bool.or_eq_true, List.contains_cons] at h ⊢
  tauto

/-- Copying a file preserves existence. -/
theorem pathExists_copyfile_mono {p : String} {fs : FS} (src dst : String)
    (h : pathExists p fs = true) : pathExists p (copyfile src dst fs) = true := by
  unfold copyfile
  cases lookupFile src fs with
  | some c => exact pathExists_writeFile_mono dst c h
  | none => exact h

/-- The baseline-fetch step only adds filesystem entries. -/
theorem pathExists_baseline_ref_mono (env : Env) (self : FITSComparison)
    (compare : Marker) (item : Item) {p : String} {fs : FS}
    (h : pathExists p fs = true) :
    pathExists p ((baseline_ref_and_fs env self compare item fs).2) = true := by
  unfold baseline_ref_and_fs
  cases source_baseline_loc env self compare item with
  | remote url => exact pathExists_writeFile_mono _ _ (pathExists_mkdir_mono _ h)
  | localFile q => exact h

/-- String append is associative. -/
theorem strAppend_assoc (a b c : String) : (a ++ b) ++ c = a ++ (b ++ c) := by
  apply String.ext
  simp [String.data_append]

/-- Verification branch when the resolved baseline does not exist:
the wrapper raises the missing-baseline message. -/
theorem verify_branch_missing (env : Env) (self : FITSComparison)
    (compare : Marker) (item : Item) (hdu : String) (fs : FS)
    (hmiss : pathExists (baseline_ref_and_fs env self compare item
        (verify_fs2 env compare item hdu fs)).1
      (baseline_ref_and_fs env self compare item
        (verify_fs2 env compare item hdu fs)).2 = false) :
    verify_branch env self compare item hdu fs
      = (Outcome.error (missing_baseline_msg (test_image env compare item)),
        (baseline_ref_and_fs env self compare item
          (verify_fs2 env compare item hdu fs)).2) := by
  unfold verify_branch
  rw [hmiss]
  simp only [Bool.false_eq_true, if_false]

/-! ## Concrete scenarios used by witnesses and counterexamples -/

/-- A comparator oracle that judges two paths identical exactly when both
name existing files with equal contents. -/
def eqOracle : String → String → Rat → FS → Bool × String :=
  fun p q _ fs =>
    ((lookupFile p fs).isSome && (lookupFile p fs == lookupFile q fs), "files differ")

/-- A comparator oracle that always reports a difference. -/
def reportOracle : String → String → Rat → FS → Bool × String :=
  fun _ _ _ _ => (false, "diff report")

/-- Base environment for the scenarios. -/
def env1 : Env :=
  { cwd := "/cwd", tmp1 := "/tmp/r1", tmp2 := "/tmp/r2",
    fitsdiff := eqOracle, download := fun _ => "remote-bytes",
    encode := fun h _ => h }

/-- Environment whose comparator always reports a difference. -/
def envReport : Env := { env1 with fitsdiff := reportOracle }

/-- Plain marker: no keyword arguments supplied. -/
def m1 : Marker :=
  { filename := none, atol := none, rtol := none, baseline_dir := none,
    writeto_kwargs := [] }

/-- Marker supplying a non-null `atol`. -/
def m2 : Marker := { m1 with atol := some 1 }

/-- Marker supplying a local `baseline_dir` whose name begins with
`http`. -/
def m10 : Marker := { m1 with baseline_dir := some "httpdata" }

/-- A marked test item under `/tests`, returning its argument as the
produced object. -/
def item1 : Item :=
  { testDir := "/tests", testName := "test_a", keywords_fits_compare := some m1,
    function := fun s => s, obj := ItemCallable.plain (fun s => s) }

/-- An unmarked test item. -/
def itemPlain : Item :=
  { testDir := "/tests", testName := "test_plain", keywords_fits_compare := none,
    function := fun s => s, obj := ItemCallable.plain (fun s => s) }

/-- Verification-mode orchestrator (no directories configured). -/
def cfg1 : FITSComparison := { baseline_dir := none, generate_dir := none }

/-- Generation-mode orchestrator. -/
def cfgGen : FITSComparison := { baseline_dir := none, generate_dir := some "/gen" }

/-- Filesystem holding the baseline for `item1`, with content equal to
the produced object. -/
def fs1 : FS := { files := [("/tests/baseline/test_a.fits", "payload")], dirs := [] }

/-- Empty filesystem (no baseline anywhere). -/
def fs0 : FS := { files := [], dirs := [] }

/-! ## Claim theorems -/

/-- C1: the claim says the wrapper's comparison result depends only on
the contents of the two local paths it passes (the baseline copy and the
generated artifact).  In the code, `compare_fits_files` overwrites both
parameters with the literal names `galactic_2d.fits` and
`equatorial_3d.fits` before calling the comparator, so its result is the
comparator's verdict on those two fixed files and is independent of the
paths the wrapper passes — the code contradicts the claim (a bug the
spec itself flags). -/
theorem compare_fits_files_ignores_given_paths (env : Env)
    (f1 f2 g1 g2 : String) (atol : Option Rat) (rtol : Rat) (fs : FS) :
    compare_fits_files env f1 f2 none rtol fs
        = Except.ok (env.fitsdiff "galactic_2d.fits" "equatorial_3d.fits" rtol fs) ∧
    compare_fits_files env f1 f2 atol rtol fs
        = compare_fits_files env g1 g2 atol rtol fs :=
  ⟨rfl, rfl⟩

/-- C3: evaluation of `pytest_configure` at the failing input.  With
`--fits-generate-path=rel` and `--fits-baseline-path=base` from `/cwd`,
the registered orchestrator keeps the generate directory as the
unresolved `"rel"` and overwrites the baseline slot with
`abspath("rel")` (line 98 assigns `os.path.abspath(generate_dir)` to
`baseline_dir`), while still emitting the conflict warning; the claim's
"both directories resolved to absolute paths" fails.  The healthy parts
are also evaluated: baseline-only configuration is resolved absolutely
with no warning, and nothing is registered when neither flag is set. -/
theorem pytest_configure_generate_dir_not_absolute :
    pytest_configure "/cwd" false (some "rel") (some "base")
        = some ({ baseline_dir := some "/cwd/rel", generate_dir := some "rel" }, true) ∧
    isAbs "rel" = false ∧
    pytest_configure "/cwd" true none (some "base")
        = some ({ baseline_dir := some "/cwd/base", generate_dir := none }, false) ∧
    pytest_configure "/cwd" false none none = none :=
  ⟨by rfl, by rfl, by rfl, by rfl⟩

/-- C6: counter-evaluation.  The baseline and the generated artifact have
identical contents, and the comparator oracle (content equality) judges
the baseline copy and the artifact identical at comparison time; yet the
test errors out with the comparator's verdict on the hardcoded filenames
`galactic_2d.fits`/`equatorial_3d.fits` (absent, hence "files differ"),
and the temporary working directory persists — contradicting the
claim's "outcome is passed and the temporary directory is removed". -/
theorem identical_artifacts_still_fail :
    (eqOracle (baseline_copy_path env1 m1 item1) (test_image env1 m1 item1)
        (resolvedRtol m1) (verify_fs3 env1 cfg1 m1 item1 "payload" fs1)).1 = true ∧
    env1.fitsdiff = eqOracle ∧
    (item_function_wrapper env1 cfg1 m1 item1 "payload" fs1).1
        = Outcome.error "files differ" ∧
    pathExists env1.tmp1 ((item_function_wrapper env1 cfg1 m1 item1 "payload" fs1).2)
        = true :=
  ⟨by rfl, rfl, by rfl, by rfl⟩

/-- C9: a test item without the `fits_compare` marker passes through
`pytest_runtest_setup` untouched — same callable, hence same signature,
arguments and return value. -/
theorem unmarked_setup_is_noop (self : FITSComparison) (env : Env) (item : Item)
    (h : item.keywords_fits_compare = none) :
    pytest_runtest_setup self env item = item := by
  unfold pytest_runtest_setup
  rw [h]

/-- Witness for C9 at a concrete unmarked item. -/
theorem unmarked_setup_is_noop_witness :
    pytest_runtest_setup cfg1 env1 itemPlain = itemPlain :=
  unmarked_setup_is_noop cfg1 env1 itemPlain rfl

/-- C10: counterexample.  For the marker baseline directory `httpdata`
under test directory `/tests`, the wrapper joins first and classifies the
joined path `/tests/httpdata`, which does not start with `http`; the
baseline is resolved as the local file `/tests/httpdata/test_a.fits`,
not downloaded — contradicting the claim that such names are treated as
remote URLs. -/
theorem httpdata_is_classified_local :
    resolve_baseline_dir cfg1 m10 item1 = "/tests/httpdata" ∧
    strStartsWith (resolve_baseline_dir cfg1 m10 item1) "http" = false ∧
    source_baseline_loc env1 cfg1 m10 item1
        = BaselineLoc.localFile "/tests/httpdata/test_a.fits" :=
  ⟨by rfl, by rfl, by rfl⟩

/-! ## Equation lemmas for the resolution functions -/

/-- `resolve_baseline_dir` when the marker supplies `baseline_dir`. -/
theorem resolve_baseline_dir_marker (self : FITSComparison) (compare : Marker)
    (item : Item) (d : String) (hm : compare.baseline_dir = some d) :
    resolve_baseline_dir self compare item
      = (if strStartsWith d "http://" || strStartsWith d "https://" then d
        else joinPath item.testDir d) := by
  unfold resolve_baseline_dir
  rw [hm]

/-- `resolve_baseline_dir` from the global configuration. -/
theorem resolve_baseline_dir_global (self : FITSComparison) (compare : Marker)
    (item : Item) (b : String) (hm : compare.baseline_dir = none)
    (hb : self.baseline_dir = some b) :
    resolve_baseline_dir self compare item = b := by
  unfold resolve_baseline_dir
  rw [hm, hb]

/-- `resolve_baseline_dir` default: `baseline` next to the test file. -/
theorem resolve_baseline_dir_default (self : FITSComparison) (compare : Marker)
    (item : Item) (hm : compare.baseline_dir = none)
    (hb : self.baseline_dir = none) :
    resolve_baseline_dir self compare item = joinPath item.testDir "baseline" := by
  unfold resolve_baseline_dir
  rw [hm, hb]

/-- `source_baseline_loc` written out over `resolve_baseline_dir`. -/
theorem source_baseline_loc_eq (env : Env) (self : FITSComparison)
    (compare : Marker) (item : Item) :
    source_baseline_loc env self compare item
      = (if strStartsWith (resolve_baseline_dir self compare item) "http" then
          BaselineLoc.remote
            (resolve_baseline_dir self compare item ++ markerFilename compare item)
        else
          BaselineLoc.localFile (abspath env.cwd (joinPath
            (joinPath item.testDir (resolve_baseline_dir self compare item))
            (markerFilename compare item)))) := rfl

/-- `spec_baseline_loc` when the marker supplies `baseline_dir`. -/
theorem spec_baseline_loc_marker (env : Env) (self : FITSComparison)
    (compare : Marker) (item : Item) (d : String)
    (hm : compare.baseline_dir = some d) :
    spec_baseline_loc env self compare item
      = (if strStartsWith d "http://" || strStartsWith d "https://" then
          BaselineLoc.remote (d ++ markerFilename compare item)
        else
          BaselineLoc.localFile (abspath env.cwd
            (joinPath (joinPath item.testDir d) (markerFilename compare item)))) := by
  unfold spec_baseline_loc
  rw [hm]

/-- `spec_baseline_loc` from the global configuration. -/
theorem spec_baseline_loc_global (env : Env) (self : FITSComparison)
    (compare : Marker) (item : Item) (b : String)
    (hm : compare.baseline_dir = none) (hb : self.baseline_dir = some b) :
    spec_baseline_loc env self compare item
      = (if strStartsWith b "http://" || strStartsWith b "https://" then
          BaselineLoc.remote (b ++ markerFilename compare item)
        else
          BaselineLoc.localFile (abspath env.cwd
            (joinPath (joinPath item.testDir b) (markerFilename compare item)))) := by
  unfold spec_baseline_loc
  rw [hm, hb]

/-- `spec_baseline_loc` default case. -/
theorem spec_baseline_loc_default (env : Env) (self : FITSComparison)
    (compare : Marker) (item : Item)
    (hm : compare.baseline_dir = none) (hb : self.baseline_dir = none) :
    spec_baseline_loc env self compare item
      = (if strStartsWith "baseline" "http://" || strStartsWith "baseline" "https://" then
          BaselineLoc.remote ("baseline" ++ markerFilename compare item)
        else
          BaselineLoc.localFile (abspath env.cwd
            (joinPath (joinPath item.testDir "baseline") (markerFilename compare item)))) := by
  unfold spec_baseline_loc
  rw [hm, hb]

/-! ## Branch lemmas for the wrapper -/

/-- The generation branch: skip outcome, artifact written with the
writer's encoding, directory created when missing. -/
theorem generate_branch_spec (env : Env) (compare : Marker) (item : Item)
    (g : String) (hdu : String) (fs : FS) :
    (generate_branch env compare item g hdu fs).1
        = Outcome.skipped "Skipping test, since generating data" ∧
    lookupFile (abspath env.cwd (joinPath g (markerFilename compare item)))
        ((generate_branch env compare item g hdu fs).2)
        = some (env.encode hdu compare.writeto_kwargs) ∧
    (pathExists g fs = false →
      g ∈ ((generate_branch env compare item g hdu fs).2).dirs) := by
  unfold generate_branch
  refine ⟨rfl, lookupFile_writeFile_self _ _ _, ?_⟩
  intro hmiss
  rw [writeFile_dirs, hmiss]
  simp [makedirs, mkdir]

/-- The verification branch with a non-null `atol` and an existing
baseline: the `NotImplementedError` surfaces only at the comparison
step, with the post-copy filesystem as the state at raise time. -/
theorem verify_branch_atol (env : Env) (self : FITSComparison) (compare : Marker)
    (item : Item) (hdu : String) (fs : FS)
    (ha : compare.atol.isSome = true)
    (hb : (lookupFile (baseline_ref_and_fs env self compare item
        (verify_fs2 env compare item hdu fs)).1
      (baseline_ref_and_fs env self compare item
        (verify_fs2 env compare item hdu fs)).2).isSome = true) :
    verify_branch env self compare item hdu fs
      = (Outcome.error "atol argument not yet supported",
        verify_fs3 env self compare item hdu fs) := by
  unfold verify_branch
  rw [if_pos (pathExists_of_lookup_isSome hb)]
  unfold compare_fits_files
  rw [if_pos ha]

/-- The verification branch when the comparator call reports
non-identical. -/
theorem verify_branch_mismatch (env : Env) (self : FITSComparison)
    (compare : Marker) (item : Item) (hdu : String) (fs : FS) (rep : String)
    (hb : (lookupFile (baseline_ref_and_fs env self compare item
        (verify_fs2 env compare item hdu fs)).1
      (baseline_ref_and_fs env self compare item
        (verify_fs2 env compare item hdu fs)).2).isSome = true)
    (hcmp : compare_fits_files env (baseline_copy_path env compare item)
        (test_image env compare item) compare.atol (resolvedRtol compare)
        (verify_fs3 env self compare item hdu fs) = Except.ok (false, rep)) :
    verify_branch env self compare item hdu fs
      = (Outcome.error rep, verify_fs3 env self compare item hdu fs) := by
  unfold verify_branch
  rw [if_pos (pathExists_of_lookup_isSome hb), hcmp]
  rfl

/-- C2: counterexample to "fails before performing any file I/O".  With
`atol` supplied, the wrapper still raises the `NotImplementedError`, but
only after the temporary directory has been created, the artifact
written into it, and the baseline copied next to it: all three survive
in the filesystem at the moment the error is raised. -/
theorem atol_counterexample_io_happened :
    (item_function_wrapper env1 cfg1 m2 item1 "payload" fs1).1
        = Outcome.error "atol argument not yet supported" ∧
    pathExists "/tmp/r1" ((item_function_wrapper env1 cfg1 m2 item1 "payload" fs1).2)
        = true ∧
    lookupFile "/tmp/r1/test_a.fits"
        ((item_function_wrapper env1 cfg1 m2 item1 "payload" fs1).2) = some "payload" ∧
    lookupFile "/tmp/r1/baseline-test_a.fits"
        ((item_function_wrapper env1 cfg1 m2 item1 "payload" fs1).2) = some "payload" :=
  ⟨by rfl, by rfl, by rfl, by rfl⟩

/-- C2 (amended): in verification mode with a non-null `atol` and an
existing baseline, the wrapper raises `NotImplementedError("atol
argument not yet supported")`, but only at the comparison step: the
temporary directory is already present in the filesystem returned at the
moment the error is raised. -/
theorem atol_error_raised_after_io (env : Env) (self : FITSComparison)
    (compare : Marker) (item : Item) (hdu : String) (fs : FS)
    (hg : self.generate_dir = none) (ha : compare.atol.isSome = true)
    (hb : (lookupFile (baseline_ref_and_fs env self compare item
        (verify_fs2 env compare item hdu fs)).1
      (baseline_ref_and_fs env self compare item
        (verify_fs2 env compare item hdu fs)).2).isSome = true) :
    (item_function_wrapper env self compare item hdu fs).1
        = Outcome.error "atol argument not yet supported" ∧
    env.tmp1 ∈ ((item_function_wrapper env self compare item hdu fs).2).dirs := by
  have hv := verify_branch_atol env self compare item hdu fs ha hb
  unfold item_function_wrapper
  rw [hg]
  constructor
  · show (verify_branch env self compare item hdu fs).1 = _
    rw [hv]
  · show env.tmp1 ∈ ((verify_branch env self compare item hdu fs).2).dirs
    rw [hv]
    exact tmp1_mem_verify_fs3_dirs env self compare item hdu fs

/-- Witness for C2's amended theorem at the concrete scenario. -/
theorem atol_error_raised_after_io_witness :
    (item_function_wrapper env1 cfg1 m2 item1 "payload" fs1).1
        = Outcome.error "atol argument not yet supported" ∧
    env1.tmp1 ∈ ((item_function_wrapper env1 cfg1 m2 item1 "payload" fs1).2).dirs :=
  atol_error_raised_after_io env1 cfg1 m2 item1 "payload" fs1 rfl rfl (by rfl)

/-- C4: with a generate directory configured, the wrapper writes the
encoded object to `abspath(join(generate_dir, filename))` using the
marker's `writeto` options, creates the generate directory when it does
not exist, and reports the test as skipped — never passed, never
failed. -/
theorem generate_mode_writes_and_skips (env : Env) (self : FITSComparison)
    (compare : Marker) (item : Item) (hdu : String) (fs : FS) (g : String)
    (hg : self.generate_dir = some g) :
    (item_function_wrapper env self compare item hdu fs).1
        = Outcome.skipped "Skipping test, since generating data" ∧
    lookupFile (abspath env.cwd (joinPath g (markerFilename compare item)))
        ((item_function_wrapper env self compare item hdu fs).2)
        = some (env.encode hdu compare.writeto_kwargs) ∧
    (pathExists g fs = false →
      g ∈ ((item_function_wrapper env self compare item hdu fs).2).dirs) := by
  have h := generate_branch_spec env compare item g hdu fs
  unfold item_function_wrapper
  rw [hg]
  exact h

/-- Witness for C4 at the concrete scenario. -/
theorem generate_mode_writes_and_skips_witness :
    (item_function_wrapper env1 cfgGen m1 item1 "payload" fs1).1
        = Outcome.skipped "Skipping test, since generating data" ∧
    lookupFile (abspath env1.cwd (joinPath "/gen" (markerFilename m1 item1)))
        ((item_function_wrapper env1 cfgGen m1 item1 "payload" fs1).2)
        = some (env1.encode "payload" m1.writeto_kwargs) ∧
    (pathExists "/gen" fs1 = false →
      "/gen" ∈ ((item_function_wrapper env1 cfgGen m1 item1 "payload" fs1).2).dirs) :=
  generate_mode_writes_and_skips env1 cfgGen m1 item1 "payload" fs1 "/gen" rfl

/-- C5: in verification mode with the resolved baseline absent, the
wrapper fails with the missing-baseline message, which contains the
generated artifact's path and the new-test note, and it fails before
any comparison: the result is the same for every comparator oracle. -/
theorem missing_baseline_fails_before_compare (env : Env)
    (self : FITSComparison) (compare : Marker) (item : Item) (hdu : String)
    (fs : FS) (hg : self.generate_dir = none)
    (hmiss : pathExists (baseline_ref_and_fs env self compare item
        (verify_fs2 env compare item hdu fs)).1
      (baseline_ref_and_fs env self compare item
        (verify_fs2 env compare item hdu fs)).2 = false) :
    (item_function_wrapper env self compare item hdu fs).1
        = Outcome.error (missing_baseline_msg (test_image env compare item)) ∧
    (∃ a b, missing_baseline_msg (test_image env compare item)
        = a ++ (test_image env compare item ++ b)) ∧
    (∃ a, missing_baseline_msg (test_image env compare item) = a ++ missing_note) ∧
    (∀ fd, item_function_wrapper { env with fitsdiff := fd } self compare item hdu fs
        = item_function_wrapper env self compare item hdu fs) := by
  have hv := verify_branch_missing env self compare item hdu fs hmiss
  refine ⟨?_, ?_, ?_, ?_⟩
  · unfold item_function_wrapper
    rw [hg]
    show (verify_branch env self compare item hdu fs).1 = _
    rw [hv]
  · exact ⟨missing_msg_header, missing_msg_mid ++ missing_note, rfl⟩
  · refine ⟨missing_msg_header ++ (test_image env compare item ++ missing_msg_mid), ?_⟩
    simp only [strAppend_assoc]
    rfl
  · intro fd
    have hv' := verify_branch_missing { env with fitsdiff := fd } self compare item
      hdu fs hmiss
    unfold item_function_wrapper
    rw [hg]
    show verify_branch { env with fitsdiff := fd } self compare item hdu fs
        = verify_branch env self compare item hdu fs
    rw [hv, hv']
    rfl

/-- Witness for C5 at the concrete scenario (empty filesystem, no
baseline anywhere). -/
theorem missing_baseline_witness :
    (item_function_wrapper env1 cfg1 m1 item1 "payload" fs0).1
        = Outcome.error (missing_baseline_msg (test_image env1 m1 item1)) :=
  (missing_baseline_fails_before_compare env1 cfg1 m1 item1 "payload" fs0
    rfl (by rfl)).1

/-- C7: in verification mode, when the comparator call reports
non-identical with report `rep`, the test fails with exactly that report
as the failure message, and the temporary working directory — holding
the generated artifact and the baseline copy — persists in the
filesystem the wrapper leaves behind. -/
theorem mismatch_fails_with_report_and_keeps_tmpdir (env : Env)
    (self : FITSComparison) (compare : Marker) (item : Item) (hdu : String)
    (fs : FS) (rep : String)
    (hg : self.generate_dir = none)
    (hb : (lookupFile (baseline_ref_and_fs env self compare item
        (verify_fs2 env compare item hdu fs)).1
      (baseline_ref_and_fs env self compare item
        (verify_fs2 env compare item hdu fs)).2).isSome = true)
    (hcmp : compare_fits_files env (baseline_copy_path env compare item)
        (test_image env compare item) compare.atol (resolvedRtol compare)
        (verify_fs3 env self compare item hdu fs) = Except.ok (false, rep)) :
    item_function_wrapper env self compare item hdu fs
        = (Outcome.error rep, verify_fs3 env self compare item hdu fs) ∧
    env.tmp1 ∈ (verify_fs3 env self compare item hdu fs).dirs ∧
    pathExists (test_image env compare item)
        (verify_fs3 env self compare item hdu fs) = true ∧
    pathExists (baseline_copy_path env compare item)
        (verify_fs3 env self compare item hdu fs) = true := by
  refine ⟨?_, tmp1_mem_verify_fs3_dirs env self compare item hdu fs, ?_, ?_⟩
  · unfold item_function_wrapper
    rw [hg]
    show verify_branch env self compare item hdu fs = _
    exact verify_branch_mismatch env self compare item hdu fs rep hb hcmp
  · unfold verify_fs3
    apply pathExists_copyfile_mono
    apply pathExists_baseline_ref_mono
    unfold verify_fs2
    exact pathExists_of_lookup_isSome (by rw [lookupFile_writeFile_self]; rfl)
  · unfold verify_fs3 copyfile
    cases hl : lookupFile (baseline_ref_and_fs env self compare item
        (verify_fs2 env compare item hdu fs)).1
      (baseline_ref_and_fs env self compare item
        (verify_fs2 env compare item hdu fs)).2 with
    | some c =>
      exact pathExists_of_lookup_isSome (by rw [lookupFile_writeFile_self]; rfl)
    | none =>
      rw [hl] at hb
      simp at hb

/-- Witness for C7 at the concrete scenario (comparator reporting a
difference). -/
theorem mismatch_fails_with_report_witness :
    item_function_wrapper envReport cfg1 m1 item1 "payload" fs1
        = (Outcome.error "diff report",
          verify_fs3 envReport cfg1 m1 item1 "payload" fs1) ∧
    envReport.tmp1 ∈ (verify_fs3 envReport cfg1 m1 item1 "payload" fs1).dirs ∧
    pathExists (test_image envReport m1 item1)
        (verify_fs3 envReport cfg1 m1 item1 "payload" fs1) = true ∧
    pathExists (baseline_copy_path envReport m1 item1)
        (verify_fs3 envReport cfg1 m1 item1 "payload" fs1) = true :=
  mismatch_fails_with_report_and_keeps_tmpdir envReport cfg1 m1 item1 "payload"
    fs1 "diff report" rfl (by rfl) (by rfl)

/-- C8: the wrapper's baseline location agrees with the spec's priority
rule — marker override first, then the global directory, then the
default `baseline` subdirectory next to the test file, with URL-prefixed
roots used as-is for the download URL and local roots resolved relative
to the test file's directory — whenever the test file's directory is
absolute (pytest guarantees `item.fspath.strpath` is absolute) and the
globally configured baseline directory is absolute or a URL (as
`pytest_configure` guarantees by applying `os.path.abspath`). -/
theorem baseline_resolution_matches_spec (env : Env) (self : FITSComparison)
    (compare : Marker) (item : Item)
    (habs : isAbs item.testDir = true)
    (hcfg : ∀ b, self.baseline_dir = some b →
      isAbs b = true ∨ strStartsWith b "http://" = true ∨
        strStartsWith b "https://" = true) :
    source_baseline_loc env self compare item
        = spec_baseline_loc env self compare item := by
  rw [source_baseline_loc_eq]
  cases hm : compare.baseline_dir with
  | some d =>
    rw [resolve_baseline_dir_marker self compare item d hm,
      spec_baseline_loc_marker env self compare item d hm]
    by_cases hurl : (strStartsWith d "http://" || strStartsWith d "https://") = true
    · rw [if_pos hurl, if_pos hurl, if_pos (http_of_url (by simpa using hurl))]
    · rw [if_neg hurl, if_neg hurl]
      have habs2 : isAbs (joinPath item.testDir d) = true := isAbs_joinPath d habs
      rw [if_neg (by simp [not_http_of_isAbs habs2])]
      rw [joinPath_of_isAbs item.testDir habs2]
  | none =>
    cases hb : self.baseline_dir with
    | some b =>
      rw [resolve_baseline_dir_global self compare item b hm hb,
        spec_baseline_loc_global env self compare item b hm hb]
      rcases hcfg b hb with habs_b | hu | hu
      · rw [if_neg (by simp [not_http_of_isAbs habs_b]),
          if_neg (by simp [not_httpURL_of_isAbs habs_b, not_httpsURL_of_isAbs habs_b])]
      · rw [if_pos (http_of_url (Or.inl hu)), if_pos (by rw [hu]; rfl)]
      · rw [if_pos (http_of_url (Or.inr hu)), if_pos (by rw [hu, Bool.or_true])]
    | none =>
      rw [resolve_baseline_dir_default self compare item hm hb,
        spec_baseline_loc_default env self compare item hm hb]
      have habs2 : isAbs (joinPath item.testDir "baseline") = true :=
        isAbs_joinPath "baseline" habs
      rw [if_neg (by simp [not_http_of_isAbs habs2]),
        if_neg (by decide), joinPath_of_isAbs item.testDir habs2]

/-- Witness for C8 at the concrete scenario. -/
theorem baseline_resolution_matches_spec_witness :
    source_baseline_loc env1 cfg1 m1 item1 = spec_baseline_loc env1 cfg1 m1 item1 :=
  baseline_resolution_matches_spec env1 cfg1 m1 item1 rfl (fun b hb => nomatch hb)

/-- C10 (amended): a marker `baseline_dir` that is not `http://`- or
`https://`-prefixed is joined to the test file's directory first, and
the bare-`http` classification then runs on the joined path; since the
test directory is absolute, the joined path starts with `/`, so such
directories (`httpdata` included) are classified local and resolved on
the filesystem — the double join collapsing because the joined path is
already absolute. -/
theorem marker_dir_joined_then_classified_local (env : Env)
    (self : FITSComparison) (compare : Marker) (item : Item) (d : String)
    (hd : compare.baseline_dir = some d)
    (h1 : strStartsWith d "http://" = false)
    (h2 : strStartsWith d "https://" = false)
    (habs : isAbs item.testDir = true) :
    resolve_baseline_dir self compare item = joinPath item.testDir d ∧
    strStartsWith (resolve_baseline_dir self compare item) "http" = false ∧
    source_baseline_loc env self compare item
        = BaselineLoc.localFile (abspath env.cwd
            (joinPath (joinPath item.testDir d) (markerFilename compare item))) := by
  have hres : resolve_baseline_dir self compare item = joinPath item.testDir d := by
    rw [resolve_baseline_dir_marker self compare item d hd,
      if_neg (by simp [h1, h2])]
  have habs2 : isAbs (joinPath item.testDir d) = true := isAbs_joinPath d habs
  have hh : strStartsWith (joinPath item.testDir d) "http" = false :=
    not_http_of_isAbs habs2
  refine ⟨hres, by rw [hres]; exact hh, ?_⟩
  rw [source_baseline_loc_eq, hres, if_neg (by simp [hh]),
    joinPath_of_isAbs item.testDir habs2]

/-- Witness for C10's amended theorem at the `httpdata` scenario. -/
theorem marker_dir_joined_then_classified_local_witness :
    resolve_baseline_dir cfg1 m10 item1 = joinPath item1.testDir "httpdata" ∧
    strStartsWith (resolve_baseline_dir cfg1 m10 item1) "http" = false ∧
    source_baseline_loc env1 cfg1 m10 item1
        = BaselineLoc.localFile (abspath env1.cwd
            (joinPath (joinPath item1.testDir "httpdata") (markerFilename m10 item1))) :=
  marker_dir_joined_then_classified_local env1 cfg1 m10 item1 "httpdata"
    rfl (by rfl) (by rfl) rfl
